import Mathlib

/-!
Verification of the AI-deck CBF safety-filter channel
(src/deck/drivers/src/aideck.c, interface src/deck/drivers/interface/aideck.h)
and the LQR controller (src/modules/src/controller_lqr.c) of the
crazyflie firmware fork.

The aideck module is modelled in its CBF_TYPE_POS build (frame data region
of MAX_CBFPACKET_DATA_SIZE = 20 bytes, u_t = {T, phi, theta, psi}).
Machine integers are Nat/Int with explicit wrap where overflow matters
(uint8 counters wrap mod 256, int16 casts wrap mod 2^16); C floats are
idealised as rationals.  Byte buffers are lists of Nat; the inbound frame
data region is modelled at the granularity at which the code reads it
(a u_t struct, extracted by memcpy in unpack).
-/

-- ===== Fixed-point codec (aideck_send_cbf_data compression, aideck.c:246-262) =====

-- C cast (int16_t)(x*1000.0f): truncation toward zero of the product.
def truncR (q : ℚ) : Int := if 0 ≤ q then ⌊q⌋ else ⌈q⌉

-- Wrap an integer into the int16 range, two's complement.
def toInt16 (n : Int) : Int := (n + 32768) % 65536 - 32768

-- One scalar's compression: (int16_t)(value * 1000.0f)
def encode16 (x : ℚ) : Int := toInt16 (truncR (x * 1000))

-- The inverse operation: divide by 1000 and restore a float.
def decode16 (i : Int) : ℚ := (i : ℚ) / 1000

-- ===== Data model (aideck.h, CBF_TYPE_POS) =====

/-- u_t: control input to adjust in the CBF-QP (4 floats). -/
structure UT where
  T : ℚ
  phi : ℚ
  theta : ℚ
  psi : ℚ
deriving DecidableEq

/-- cbf_qpdata_t: OSQP parametric data (position, velocity, nominal input). -/
structure QpData where
  x : ℚ
  y : ℚ
  z : ℚ
  x_dot : ℚ
  y_dot : ℚ
  z_dot : ℚ
  u : UT
deriving DecidableEq

/-- cbf_qpdata_comp_t: compressed QP data, every field an int16 value. -/
structure QpComp where
  x : Int
  y : Int
  z : Int
  x_dot : Int
  y_dot : Int
  z_dot : Int
  uT : Int
  uphi : Int
  utheta : Int
  upsi : Int
deriving DecidableEq

def MAX_CBFPACKET_DATA_SIZE : Nat := 20

/-- Outbound CBFPacket pk_tx: header byte plus 20-byte data region. -/
structure TxPacket where
  header : Nat
  data : List Nat
deriving DecidableEq

/-- Inbound CBFPacket pk_rx: header byte plus data region, modelled at the
granularity at which unpack reads it (the u_t struct memcpy extracts). -/
structure RxPacket where
  header : Nat
  data : UT
deriving DecidableEq

/-- The aideck module's mutable state: aideck_ready_flag, missed_cycles
(both uint8), u_struct, pk_tx and pk_rx. -/
structure AideckState where
  aideck_ready_flag : Nat
  missed_cycles : Nat
  u : UT
  pk_tx : TxPacket
  pk_rx : RxPacket
deriving DecidableEq

-- ===== Operations (aideck.c) =====

-- Compression step of aideck_send_cbf_data (lines 253-262): each scalar
-- is cast independently via (int16_t)(value*1000.0f).
def compress (d : QpData) : QpComp :=
  ⟨encode16 d.x, encode16 d.y, encode16 d.z,
   encode16 d.x_dot, encode16 d.y_dot, encode16 d.z_dot,
   encode16 d.u.T, encode16 d.u.phi, encode16 d.u.theta, encode16 d.u.psi⟩

-- Little-endian byte serialisation of one int16 field of the packed struct.
def int16Bytes (i : Int) : List Nat :=
  [(i % 65536).toNat % 256, (i % 65536).toNat / 256]

-- Byte image of the packed cbf_qpdata_comp_t struct (20 bytes).
def compBytes (c : QpComp) : List Nat :=
  int16Bytes c.x ++ int16Bytes c.y ++ int16Bytes c.z ++ int16Bytes c.x_dot ++
  int16Bytes c.y_dot ++ int16Bytes c.z_dot ++ int16Bytes c.uT ++
  int16Bytes c.uphi ++ int16Bytes c.utheta ++ int16Bytes c.upsi

/-- cbf_pack (aideck.c:301-315): on oversize, sets pk_tx.header = 0 and
returns NULL; otherwise writes the marker byte 86 and memcpy's size bytes
into the data region (bytes past the copy keep their old value).  Returns
(result, new pk_tx). -/
def cbf_pack (size : Nat) (data : List Nat) (pk : TxPacket) :
    Option TxPacket × TxPacket :=
  if size > MAX_CBFPACKET_DATA_SIZE then
    (none, { pk with header := 0 })
  else
    let packed : TxPacket := { header := 86, data := data.take size ++ pk.data.drop size }
    (some packed, packed)

-- force_stop_u (aideck.c:120-131): zero all four components of u.
def force_stop_u : UT := ⟨0, 0, 0, 0⟩

-- memset(&pk_tx, 0, sizeof(CBFPacket)) after sending.
def clearTx : TxPacket := ⟨0, List.replicate MAX_CBFPACKET_DATA_SIZE 0⟩

/-- aideck_send_cbf_data (aideck.c:242-296).  Ready branch: compress, pack
(size 20 = sizeof(cbf_qpdata_comp_t)), hand pk_tx.raw to USART_DMA_Send
(returned as some bytes), clear pk_tx, flag := 0, missed_cycles := 0.
Busy branch: missed_cycles++ (uint8 wrap); if it exceeds 200, force-stop u
and force the ready flag. -/
def aideck_send_cbf_data (d : QpData) (s : AideckState) :
    AideckState × Option (List Nat) :=
  if s.aideck_ready_flag ≠ 0 then
    let comp := compress d
    let pk1 := (cbf_pack 20 (compBytes comp) s.pk_tx).2
    ({ s with pk_tx := clearTx, aideck_ready_flag := 0, missed_cycles := 0 },
     some (pk1.header :: pk1.data))
  else
    let m := (s.missed_cycles + 1) % 256
    if m > 200 then
      ({ s with missed_cycles := m, u := force_stop_u, aideck_ready_flag := 1 }, none)
    else
      ({ s with missed_cycles := m }, none)

/-- unpack (aideck.c:156-166).  Bad header: return 1 immediately — the
memset after the early return is unreachable, so pk_rx is untouched.
Good header: ready flag := 1, memcpy pk_rx.data into u_struct, clear
pk_rx.  Returns (state, nonzero-result). -/
def unpack (s : AideckState) : AideckState × Bool :=
  if s.pk_rx.header ≠ 86 then
    (s, true)
  else
    ({ s with aideck_ready_flag := 1, u := s.pk_rx.data,
              pk_rx := ⟨0, ⟨0, 0, 0, 0⟩⟩ }, false)

/-- The dma_flag branch of Gap8Task (aideck.c:187-196): run unpack; if it
failed, call USART_DMA_ResetCounter for one full fresh frame (returned
Bool) and force the ready flag. -/
def gap8_receive (s : AideckState) : AideckState × Bool :=
  let r := unpack s
  if r.2 then ({ r.1 with aideck_ready_flag := 1 }, true) else (r.1, false)

/-- aideck_get_safe_u (aideck.c:319-331): hand the controller the stored
safe control vector. -/
def aideck_get_safe_u (s : AideckState) : ℚ × ℚ × ℚ × ℚ :=
  (s.u.T, s.u.phi, s.u.theta, s.u.psi)

/-- n consecutive control cycles each invoking aideck_send_cbf_data. -/
def sendIter (d : QpData) (n : Nat) (s : AideckState) : AideckState :=
  (fun t => (aideck_send_cbf_data d t).1)^[n] s

-- ===== Concrete fixtures used by counterexamples and witnesses =====

def qpFix : QpData := ⟨0, 0, 0, 0, 0, 0, ⟨0, 0, 0, 0⟩⟩

def aideckFix : AideckState := ⟨0, 0, ⟨1, 1, 1, 1⟩, clearTx, ⟨0, ⟨0, 0, 0, 0⟩⟩⟩

def rxFix : AideckState := ⟨0, 5, ⟨0, 0, 0, 0⟩, clearTx, ⟨86, ⟨2, 3, 4, 5⟩⟩⟩

-- ===== LQR controller data model (controller_lqr.c) =====
-- Modelled in the no-CBF, LQR_ALT_PID build of controller_lqr.c.  The
-- rate gates RATE_DO_EXECUTE(RATE_HZ, tick) and the external
-- collaborators (attitude PID cascade, altitude PID value, pwm
-- conversion via sqrtf, actuator output) live outside src/ or use
-- floating-point sqrt; they enter the step function as explicit inputs.

/-- 3-vectors of the estimator state (position / velocity). -/
structure Vec3 where
  x : ℚ
  y : ℚ
  z : ℚ
deriving DecidableEq

/-- Attitude triple (roll, pitch, yaw). -/
structure AttQ where
  roll : ℚ
  pitch : ℚ
  yaw : ℚ
deriving DecidableEq

/-- The part of state_t read by controllerLqr. -/
structure state_t where
  position : Vec3
  velocity : Vec3
  attitude : AttQ
deriving DecidableEq

/-- The part of setpoint_t read by controllerLqr. -/
structure setpoint_t where
  position : Vec3
  velocity : Vec3
  attitude : AttQ
  attitudeRate : AttQ
  thrust : ℚ
deriving DecidableEq

/-- The static err state (only position/attitude/velocity are used). -/
structure ErrT where
  position : Vec3
  attitude : AttQ
  velocity : Vec3
deriving DecidableEq

/-- A 4-component control input u[0..3]. -/
structure U4 where
  u0 : ℚ
  u1 : ℚ
  u2 : ℚ
  u3 : ℚ
deriving DecidableEq

/-- control_t as written by controllerLqr. -/
structure control_t where
  thrust : ℚ
  roll : ℚ
  pitch : ℚ
  yaw : ℚ
deriving DecidableEq

/-- lqr_mode_t. -/
inductive LqrMode where
  | D9LQR
  | D6LQR
deriving DecidableEq

/-- The controller module's static state. -/
structure LqrState where
  mode : LqrMode
  err : ErrT
  u : U4
  uD6 : U4
  actuatorThrust : ℚ
  rateDesired : AttQ
  u_T : ℚ
  u_p : ℚ
  u_q : ℚ
  u_r : ℚ
  KD9 : Fin 4 → Fin 9 → ℚ
  KD6 : Fin 4 → Fin 6 → ℚ
  flying : Bool

-- Float value of (float)M_PI, exactly 13176795 / 2^22.
def M_PI_F : ℚ := 13176795 / 4194304

def DEG2RAD : ℚ := M_PI_F / 180

def RAD2DEG : ℚ := 180 / M_PI_F

/-- Per-invocation inputs of controllerLqr: the rate-gate results and the
external collaborators, plus setpoint and estimator state.  gLqr stands
for RATE_DO_EXECUTE(D9LQR_RATE, tick) resp. RATE_DO_EXECUTE(D6LQR_RATE,
tick), gAtt for RATE_DO_EXECUTE(ATTITUDE_RATE, tick), gZpid for
RATE_DO_EXECUTE(Z_PID_RATE, tick).  pidT is the value returned by the
external altitude pidUpdate; attPid the three outputs of
attitudeControllerCorrectAttitudePID; toPwm the to_pwm conversion (a
floating-point sqrt model, left uninterpreted); actOut the triple read by
attitudeControllerGetActuatorOutput. -/
structure LqrInputs where
  gLqr : Bool
  gAtt : Bool
  gZpid : Bool
  pidT : ℚ
  attPid : ℚ → ℚ → ℚ → ℚ → ℚ → ℚ → ℚ × ℚ × ℚ
  toPwm : ℚ → ℚ
  actOut : ℚ × ℚ × ℚ
  setpoint : setpoint_t
  state : state_t

/-- Per-invocation outputs: the new static state, the emitted control_t,
and whether attitudeControllerResetAllPID resp. pidReset(&pidT) were
invoked this cycle. -/
structure LqrOutput where
  st : LqrState
  control : control_t
  resetAllPID : Bool
  altPidReset : Bool

-- ===== LQR controller operations =====

-- Error computation of lqr_D9 (controller_lqr.c:140-148): note the
-- negated pitch and the degree-to-radian conversion of sensed attitude.
def errD9 (setpoint : setpoint_t) (state : state_t) : ErrT :=
  { position := ⟨state.position.x - setpoint.position.x,
                 state.position.y - setpoint.position.y,
                 state.position.z - setpoint.position.z⟩,
    attitude := ⟨state.attitude.roll * DEG2RAD - setpoint.attitude.roll,
                 -state.attitude.pitch * DEG2RAD - setpoint.attitude.pitch,
                 state.attitude.yaw * DEG2RAD - setpoint.attitude.yaw⟩,
    velocity := ⟨state.velocity.x - setpoint.velocity.x,
                 state.velocity.y - setpoint.velocity.y,
                 state.velocity.z - setpoint.velocity.z⟩ }

-- One row of the negative state feedback -K*err (controller_lqr.c:151-162).
def d9row (K : Fin 4 → Fin 9 → ℚ) (i : Fin 4) (e : ErrT) : ℚ :=
  -(K i 0 * e.position.x + K i 1 * e.position.y + K i 2 * e.position.z
  + K i 3 * e.attitude.roll + K i 4 * e.attitude.pitch + K i 5 * e.attitude.yaw
  + K i 6 * e.velocity.x + K i 7 * e.velocity.y + K i 8 * e.velocity.z)

/-- lqr_D9 (controller_lqr.c:137-176), no-CBF build: when its rate gate
fires, recompute err and u = -K9*err + nominal (setpoint thrust and
attitude rates). -/
def lqr_D9 (g : Bool) (setpoint : setpoint_t) (state : state_t) (s : LqrState) : LqrState :=
  if g then
    let e := errD9 setpoint state
    { s with err := e,
             u := ⟨d9row s.KD9 0 e + setpoint.thrust,
                   d9row s.KD9 1 e + setpoint.attitudeRate.roll,
                   d9row s.KD9 2 e + setpoint.attitudeRate.pitch,
                   d9row s.KD9 3 e + setpoint.attitudeRate.yaw⟩ }
  else s

-- Error computation of lqr_D6 (controller_lqr.c:182-187): only position
-- and velocity entries of the shared err are rewritten.
def errD6 (setpoint : setpoint_t) (state : state_t) (old : ErrT) : ErrT :=
  { old with
    position := ⟨state.position.x - setpoint.position.x,
                 state.position.y - setpoint.position.y,
                 state.position.z - setpoint.position.z⟩,
    velocity := ⟨state.velocity.x - setpoint.velocity.x,
                 state.velocity.y - setpoint.velocity.y,
                 state.velocity.z - setpoint.velocity.z⟩ }

-- One row of the negative state feedback -K*err (controller_lqr.c:190-197).
def d6row (K : Fin 4 → Fin 6 → ℚ) (i : Fin 4) (e : ErrT) : ℚ :=
  -(K i 0 * e.position.x + K i 1 * e.position.y + K i 2 * e.position.z
  + K i 3 * e.velocity.x + K i 4 * e.velocity.y + K i 5 * e.velocity.z)

/-- lqr_D6 (controller_lqr.c:179-212), no-CBF build: when its rate gate
fires, recompute err (position/velocity only) and u_D6 = -K6*err +
nominal (setpoint thrust and attitude angles). -/
def lqr_D6 (g : Bool) (setpoint : setpoint_t) (state : state_t) (s : LqrState) : LqrState :=
  if g then
    let e := errD6 setpoint state s.err
    { s with err := e,
             uD6 := ⟨d6row s.KD6 0 e + setpoint.thrust,
                     d6row s.KD6 1 e + setpoint.attitude.roll,
                     d6row s.KD6 2 e + setpoint.attitude.pitch,
                     d6row s.KD6 3 e + setpoint.attitude.yaw⟩ }
  else s

-- Flying safety check at max Hz (controller_lqr.c:290-293).
def flyingCheck (inp : LqrInputs) (s : LqrState) : LqrState :=
  if inp.setpoint.position.z > 0 then { s with flying := true }
  else { s with flying := false }

-- Mode dispatch (controller_lqr.c:296-300).
def lqrDispatch (inp : LqrInputs) (s : LqrState) : LqrState :=
  if s.mode = LqrMode.D9LQR then lqr_D9 inp.gLqr inp.setpoint inp.state s
  else if s.mode = LqrMode.D6LQR then lqr_D6 inp.gLqr inp.setpoint inp.state s
  else s

-- D6 attitude cascade at ATTITUDE_RATE (controller_lqr.c:303-314): run
-- the external attitude PID on the angle command (converted to degrees)
-- and convert its rate output back to rad/s.
def d6Cascade (inp : LqrInputs) (s : LqrState) : LqrState :=
  if s.mode = LqrMode.D6LQR then
    if inp.gAtt then
      let rpy := inp.attPid inp.state.attitude.roll (-inp.state.attitude.pitch)
                   inp.state.attitude.yaw (s.uD6.u1 * RAD2DEG) (s.uD6.u2 * RAD2DEG)
                   (s.uD6.u3 * RAD2DEG)
      { s with u := ⟨s.uD6.u0, rpy.1 * DEG2RAD, rpy.2.1 * DEG2RAD, rpy.2.2 * DEG2RAD⟩ }
    else s
  else s

-- Altitude integral action at Z_PID_RATE (controller_lqr.c:316-323),
-- LQR_ALT_PID build: add the external pidUpdate result to the thrust.
def altPidPhase (inp : LqrInputs) (s : LqrState) : LqrState :=
  if inp.gZpid then { s with u := { s.u with u0 := s.u.u0 + inp.pidT } } else s

/-- The control vector entering the saturation block: everything
controllerLqr does before line 326. -/
def preSat (inp : LqrInputs) (s : LqrState) : LqrState :=
  altPidPhase inp (d6Cascade inp (lqrDispatch inp (flyingCheck inp s)))

-- Saturations, logging and conversions at ATTITUDE_RATE
-- (controller_lqr.c:326-344): clamp thrust to [0,18] m/s^2 and each rate
-- to [-3.5,3.5] rad/s via fmaxf(fminf(.)), record the post-saturation
-- values in the log variables, convert thrust via to_pwm and the rates to
-- deg/s for rateDesired.
def satConvert (inp : LqrInputs) (s : LqrState) : LqrState :=
  if inp.gAtt then
    let t := max (min s.u.u0 18) 0
    let p := max (min s.u.u1 (7/2)) (-(7/2))
    let q := max (min s.u.u2 (7/2)) (-(7/2))
    let r := max (min s.u.u3 (7/2)) (-(7/2))
    { s with u := ⟨t, p, q, r⟩,
             u_T := t, u_p := p, u_q := q, u_r := r,
             actuatorThrust := inp.toPwm t,
             rateDesired := ⟨p * RAD2DEG, q * RAD2DEG, r * RAD2DEG⟩ }
  else s

-- Landing detection (controller_lqr.c:346-348): note the code sums
-- err.x + err.y + err.y (y twice, no z).
def landingDetect (inp : LqrInputs) (s : LqrState) : LqrState :=
  if s.err.position.x + s.err.position.y + s.err.position.y < 3 / 40 ∧
       inp.setpoint.position.z = 0
  then { s with flying := false } else s

-- Grounded thrust cut (controller_lqr.c:349-351).
def landingThrustCut (s : LqrState) : LqrState :=
  if s.flying then s else { s with actuatorThrust := 0 }

-- Emission and power-distribution safety (controller_lqr.c:360-377):
-- control->thrust = actuatorThrust; when it is 0, zero roll/pitch/yaw and
-- reset the attitude-rate PIDs and the altitude PID.
def emit (inp : LqrInputs) (s : LqrState) : LqrOutput :=
  if s.actuatorThrust = 0 then
    { st := s, control := ⟨s.actuatorThrust, 0, 0, 0⟩,
      resetAllPID := true, altPidReset := true }
  else
    { st := s, control := ⟨s.actuatorThrust, inp.actOut.1, inp.actOut.2.1, inp.actOut.2.2⟩,
      resetAllPID := false, altPidReset := false }

/-- controllerLqr (controller_lqr.c:287-378): one invocation of the
control cascade. -/
def controllerLqr (inp : LqrInputs) (s : LqrState) : LqrOutput :=
  emit inp (landingThrustCut (landingDetect inp (satConvert inp (preSat inp s))))

/-- update_K_entry (controller_lqr.c:381-383): KD9[i][j] = value.  The C
function takes unchecked uint8 indices; the Fin types carry the required
precondition i < 4, j < 9. -/
def update_K_entry (i : Fin 4) (j : Fin 9) (value : ℚ) (s : LqrState) : LqrState :=
  { s with KD9 := fun a b => if a = i ∧ b = j then value else s.KD9 a b }

-- ===== Concrete controller fixtures =====

def zeroAtt : AttQ := ⟨0, 0, 0⟩

def zeroVec : Vec3 := ⟨0, 0, 0⟩

def zeroErr : ErrT := ⟨zeroVec, zeroAtt, zeroVec⟩

def stateFix : state_t := ⟨zeroVec, zeroVec, zeroAtt⟩

def setpointFix : setpoint_t := ⟨zeroVec, zeroVec, zeroAtt, zeroAtt, 0⟩

def setpointUp : setpoint_t := ⟨⟨0, 0, 1⟩, zeroVec, zeroAtt, zeroAtt, 0⟩

def lqrFix : LqrState :=
  ⟨LqrMode.D9LQR, zeroErr, ⟨25, 4, -4, 0⟩, ⟨0, 0, 0, 0⟩, 0, zeroAtt,
   0, 0, 0, 0, fun _ _ => 0, fun _ _ => 0, false⟩

def inputsFix : LqrInputs :=
  ⟨false, true, false, 0, fun _ _ _ _ _ _ => (0, 0, 0), fun _ => 0, (0, 0, 0),
   setpointFix, stateFix⟩

def inputsUp : LqrInputs :=
  ⟨false, true, false, 0, fun _ _ _ _ _ _ => (0, 0, 0), fun _ => 0, (0, 0, 0),
   setpointUp, stateFix⟩

-- ===== Helper lemmas: busy-cycle iteration =====

/-- While the channel is Busy and the counter stays at or below the
threshold, each send call only increments missed_cycles. -/
theorem sendIter_busy (d : QpData) : ∀ (n : Nat) (s : AideckState),
    s.aideck_ready_flag = 0 → s.missed_cycles + n ≤ 200 →
    (sendIter d n s).aideck_ready_flag = 0 ∧
    (sendIter d n s).missed_cycles = s.missed_cycles + n ∧
    (sendIter d n s).u = s.u := by
  intro n
  induction n with
  | zero => intro s h1 _; simp [sendIter, h1]
  | succ n ih =>
    intro s h1 h2
    have hstep : (aideck_send_cbf_data d s).1 =
        { s with missed_cycles := s.missed_cycles + 1 } := by
      unfold aideck_send_cbf_data
      rw [if_neg (by simp [h1])]
      have hm : (s.missed_cycles + 1) % 256 = s.missed_cycles + 1 :=
        Nat.mod_eq_of_lt (by omega)
      simp only [hm]
      rw [if_neg (by omega)]
    have hit : sendIter d (n + 1) s
        = sendIter d n { s with missed_cycles := s.missed_cycles + 1 } := by
      rw [show sendIter d (n + 1) s = sendIter d n ((aideck_send_cbf_data d s).1) from by
            simp [sendIter, Function.iterate_succ_apply], hstep]
    obtain ⟨a1, a2, a3⟩ := ih { s with missed_cycles := s.missed_cycles + 1 }
      h1 (by show s.missed_cycles + 1 + n ≤ 200; omega)
    refine ⟨by rw [hit]; exact a1, ?_, ?_⟩
    · rw [hit, a2]
      show s.missed_cycles + 1 + n = s.missed_cycles + (n + 1)
      omega
    · rw [hit, a3]

-- ===== Claim C1 =====

/-- Claim C1, counterexample: starting Busy with counter 0, after exactly
200 missed cycles the counter has reached 200 but the stored safe control
vector is NOT zeroed and the channel is NOT forced back to Ready — the
fail-safe has not fired yet (it requires the counter to exceed 200). -/
theorem c1_counterexample :
    (sendIter qpFix 200 aideckFix).missed_cycles = 200 ∧
    (sendIter qpFix 200 aideckFix).aideck_ready_flag = 0 ∧
    (sendIter qpFix 200 aideckFix).u = ⟨1, 1, 1, 1⟩ := by
  obtain ⟨h1, h2, h3⟩ := sendIter_busy qpFix 200 aideckFix rfl
    (by show 0 + 200 ≤ 200; omega)
  refine ⟨by rw [h2]; rfl, h1, by rw [h3]; rfl⟩

/-- Claim C1 (amended): if aideck_send_cbf_data is invoked on every cycle
while Busy with counter starting at 0 and no reply ever arrives, the
counter reaches 200 after exactly 200 cycles with the control vector and
state untouched; the fail-safe fires one cycle later, on the 201st missed
cycle, when the counter (201) first exceeds the threshold 200: the stored
safe control vector is zeroed on all four components and the channel state
is forced back to Ready. -/
theorem c1_watchdog (d : QpData) (s : AideckState)
    (h0 : s.aideck_ready_flag = 0) (hm : s.missed_cycles = 0) :
    (sendIter d 200 s).missed_cycles = 200 ∧
    (sendIter d 200 s).aideck_ready_flag = 0 ∧
    (sendIter d 200 s).u = s.u ∧
    (sendIter d 201 s).u = ⟨0, 0, 0, 0⟩ ∧
    (sendIter d 201 s).aideck_ready_flag = 1 ∧
    (sendIter d 201 s).missed_cycles = 201 := by
  obtain ⟨hr, hmc, hu⟩ := sendIter_busy d 200 s h0 (by omega)
  rw [hm] at hmc
  have h201 : sendIter d 201 s = (aideck_send_cbf_data d (sendIter d 200 s)).1 := by
    unfold sendIter
    rw [show (201 : Nat) = 200 + 1 from rfl, Function.iterate_succ_apply']
  have hstep : (aideck_send_cbf_data d (sendIter d 200 s)).1.u = force_stop_u ∧
      (aideck_send_cbf_data d (sendIter d 200 s)).1.aideck_ready_flag = 1 ∧
      (aideck_send_cbf_data d (sendIter d 200 s)).1.missed_cycles = 201 := by
    simp [aideck_send_cbf_data, hr, hmc]
  refine ⟨by omega, hr, hu, ?_, ?_, ?_⟩ <;> rw [h201]
  · exact hstep.1
  · exact hstep.2.1
  · exact hstep.2.2

/-- Claim C1 witness: the amended watchdog theorem at a concrete state. -/
theorem c1_witness : (sendIter qpFix 201 aideckFix).aideck_ready_flag = 1 :=
  (c1_watchdog qpFix aideckFix rfl rfl).2.2.2.2.1

-- ===== Claim C2 =====

/-- Claim C2, counterexample: a valid reply frame (header 86 = marker V)
arrives while the channel is Busy with 5 missed cycles accumulated; after
the frame is processed the missed-cycle counter is still 5, not 0 —
unpack never touches missed_cycles. -/
theorem c2_counterexample :
    rxFix.aideck_ready_flag = 0 ∧ rxFix.pk_rx.header = 86 ∧
    (gap8_receive rxFix).1.missed_cycles ≠ 0 := by decide

/-- Claim C2 (amended): if a valid reply frame (header byte equal to the
valid-packet marker) carrying payload P arrives while the channel is Busy,
then immediately after the frame is processed the stored safe control
vector equals P's u-struct contents (the payload is copied in directly as
the four floats of u_t; no fixed-point decoding happens on receive), the
inbound frame is cleared, the channel is in Ready state, and the
missed-cycle counter is unchanged — it resets to zero only at the next
successful send, not on reply. -/
theorem c2_valid_reply (s : AideckState) (hbusy : s.aideck_ready_flag = 0)
    (hv : s.pk_rx.header = 86) :
    (gap8_receive s).1.u = s.pk_rx.data ∧
    (gap8_receive s).1.aideck_ready_flag = 1 ∧
    (gap8_receive s).1.missed_cycles = s.missed_cycles ∧
    (gap8_receive s).1.pk_rx = ⟨0, ⟨0, 0, 0, 0⟩⟩ ∧
    (gap8_receive s).2 = false := by
  simp [gap8_receive, unpack, hv]

/-- Claim C2 witness: the amended theorem at a concrete Busy state. -/
theorem c2_witness : (gap8_receive rxFix).1.u = rxFix.pk_rx.data :=
  (c2_valid_reply rxFix rfl rfl).1

-- ===== Claim C3 =====

/-- Claim C3, counterexample: an oversize pack call (size 21 > 20) on an
outbound frame whose header byte is 86 returns NULL but MUTATES the header
byte, setting it to 0. -/
theorem c3_counterexample :
    (cbf_pack 21 (List.replicate 21 1) ⟨86, List.replicate 20 7⟩).1 = none ∧
    (cbf_pack 21 (List.replicate 21 1) ⟨86, List.replicate 20 7⟩).2.header ≠ 86 := by
  decide

/-- Claim C3 (amended): for every call cbf_pack(size, data) with size
strictly greater than MAX_CBFPACKET_DATA_SIZE, the pack fails (returns
NULL) and no frame is handed to the transport, but the outbound frame's
header byte is set to 0 (deliberately invalidating the frame) rather than
left unmutated; the data region is untouched. -/
theorem c3_oversize (size : Nat) (data : List Nat) (pk : TxPacket)
    (h : size > MAX_CBFPACKET_DATA_SIZE) :
    cbf_pack size data pk = (none, { pk with header := 0 }) := by
  simp [cbf_pack, h]

/-- Claim C3 witness: the amended theorem at a concrete oversize call. -/
theorem c3_witness : cbf_pack 21 [] ⟨86, []⟩ = (none, ⟨0, []⟩) :=
  c3_oversize 21 [] ⟨86, []⟩ (by decide)

-- ===== Claim C5 =====

/-- Claim C5: when an inbound frame's header differs from the marker 86,
the bad-header path leaves the stored safe control vector un-updated and
the inbound frame buffer unchanged (the clearing statement after the early
return in unpack is unreachable), invokes the transport resynchronization
primitive, and forces the channel state to Ready. -/
theorem c5_bad_header (s : AideckState) (h : s.pk_rx.header ≠ 86) :
    (gap8_receive s).1.u = s.u ∧
    (gap8_receive s).1.pk_rx = s.pk_rx ∧
    (gap8_receive s).1.aideck_ready_flag = 1 ∧
    (gap8_receive s).1.missed_cycles = s.missed_cycles ∧
    (gap8_receive s).2 = true := by
  simp [gap8_receive, unpack, h]

/-- Claim C5 witness: bad-header handling at a concrete state. -/
theorem c5_witness : (gap8_receive aideckFix).1.u = aideckFix.u :=
  (c5_bad_header aideckFix (by decide)).1

-- ===== Claim C9 =====

/-- Claim C9: the fixed-point encoding of every scalar equals
round-toward-zero of the value times 1000 stored as a wrapping 16-bit
signed integer; for |x| ≤ 32.767 no wrap occurs and decoding (dividing by
1000) recovers x within 0.001 absolute error; outside that range the cast
wraps silently (32.77 encodes to -32766). -/
theorem c9_codec (x : ℚ) (h : |x| ≤ 32767 / 1000) :
    encode16 x = truncR (x * 1000) ∧
    |decode16 (encode16 x) - x| < 1 / 1000 ∧
    encode16 (3277 / 100) = -32766 := by
  have hq : |x * 1000| ≤ 32767 := by
    rw [abs_mul]
    calc |x| * |(1000 : ℚ)|
        ≤ (32767 / 1000) * 1000 :=
          mul_le_mul h (by norm_num) (abs_nonneg _) (by norm_num)
      _ = 32767 := by norm_num
  have h1 : -(32767 : ℚ) ≤ x * 1000 := (abs_le.mp hq).1
  have h2 : x * 1000 ≤ 32767 := (abs_le.mp hq).2
  have htr : -32767 ≤ truncR (x * 1000) ∧ truncR (x * 1000) ≤ 32767 := by
    unfold truncR
    split
    case isTrue hp =>
      constructor
      · have : (0 : Int) ≤ ⌊x * 1000⌋ := Int.floor_nonneg.mpr hp
        omega
      · have : (⌊x * 1000⌋ : ℚ) ≤ 32767 := le_trans (Int.floor_le _) h2
        exact_mod_cast this
    case isFalse hp =>
      constructor
      · have : ((-32767 : Int) : ℚ) ≤ x * 1000 := by exact_mod_cast h1
        have hc := Int.ceil_le_ceil this
        rwa [Int.ceil_intCast] at hc
      · have hle : x * 1000 ≤ ((0 : Int) : ℚ) := by
          push_cast
          linarith [lt_of_not_le hp]
        have hc := Int.ceil_le_ceil hle
        rw [Int.ceil_intCast] at hc
        omega
  have hid : encode16 x = truncR (x * 1000) := by
    unfold encode16 toInt16
    obtain ⟨ha, hb⟩ := htr
    omega
  have habs : |(truncR (x * 1000) : ℚ) - x * 1000| < 1 := by
    unfold truncR
    split
    · have l := Int.floor_le (x * 1000)
      have u := Int.lt_floor_add_one (x * 1000)
      rw [abs_lt]; constructor <;> linarith
    · have l := Int.le_ceil (x * 1000)
      have u := Int.ceil_lt_add_one (x * 1000)
      rw [abs_lt]; constructor <;> linarith
  have hwrap : encode16 (3277 / 100) = -32766 := by
    unfold encode16 truncR toInt16
    rw [show (3277 / 100 : ℚ) * 1000 = 32770 from by norm_num,
        if_pos (by norm_num), show ⌊(32770 : ℚ)⌋ = 32770 from by norm_num]
    decide
  refine ⟨hid, ?_, hwrap⟩
  rw [hid]
  unfold decode16
  have hrw : (truncR (x * 1000) : ℚ) / 1000 - x =
      ((truncR (x * 1000) : ℚ) - x * 1000) / 1000 := by ring
  rw [hrw, abs_div, show |(1000 : ℚ)| = 1000 by norm_num,
      div_lt_div_iff₀ (by norm_num) (by norm_num)]
  linarith

/-- Claim C9 witness: the codec theorem at x = 1.234 (within range). -/
theorem c9_witness : |decode16 (encode16 (1234 / 1000)) - 1234 / 1000| < 1 / 1000 :=
  (c9_codec (1234 / 1000) (by norm_num [abs_le])).2.1

-- ===== Helper lemmas: phase frame conditions =====

@[simp] theorem lqr_D9_flying (g : Bool) (sp : setpoint_t) (st : state_t) (s : LqrState) :
    (lqr_D9 g sp st s).flying = s.flying := by
  unfold lqr_D9; split <;> rfl

@[simp] theorem lqr_D6_flying (g : Bool) (sp : setpoint_t) (st : state_t) (s : LqrState) :
    (lqr_D6 g sp st s).flying = s.flying := by
  unfold lqr_D6; split <;> rfl

@[simp] theorem lqrDispatch_flying (inp : LqrInputs) (s : LqrState) :
    (lqrDispatch inp s).flying = s.flying := by
  unfold lqrDispatch; split
  · simp
  · split
    · simp
    · rfl

@[simp] theorem d6Cascade_flying (inp : LqrInputs) (s : LqrState) :
    (d6Cascade inp s).flying = s.flying := by
  unfold d6Cascade; split
  · split <;> rfl
  · rfl

@[simp] theorem altPidPhase_flying (inp : LqrInputs) (s : LqrState) :
    (altPidPhase inp s).flying = s.flying := by
  unfold altPidPhase; split <;> rfl

@[simp] theorem satConvert_flying (inp : LqrInputs) (s : LqrState) :
    (satConvert inp s).flying = s.flying := by
  unfold satConvert; split <;> rfl

@[simp] theorem preSat_flying (inp : LqrInputs) (s : LqrState) :
    (preSat inp s).flying = (flyingCheck inp s).flying := by
  unfold preSat; simp

@[simp] theorem landingThrustCut_flying (s : LqrState) :
    (landingThrustCut s).flying = s.flying := by
  unfold landingThrustCut; split <;> rfl

@[simp] theorem landingDetect_u (inp : LqrInputs) (s : LqrState) :
    (landingDetect inp s).u = s.u := by
  unfold landingDetect; split <;> rfl

@[simp] theorem landingThrustCut_u (s : LqrState) :
    (landingThrustCut s).u = s.u := by
  unfold landingThrustCut; split <;> rfl

@[simp] theorem emit_st (inp : LqrInputs) (s : LqrState) : (emit inp s).st = s := by
  unfold emit; split <;> rfl

@[simp] theorem emit_thrust (inp : LqrInputs) (s : LqrState) :
    (emit inp s).control.thrust = s.actuatorThrust := by
  unfold emit; split <;> rfl

theorem landingDetect_flying_of_false (inp : LqrInputs) (s : LqrState)
    (h : s.flying = false) : (landingDetect inp s).flying = false := by
  unfold landingDetect; split <;> simp [h]

theorem landingDetect_flying_of_znz (inp : LqrInputs) (s : LqrState)
    (hz : inp.setpoint.position.z ≠ 0) : (landingDetect inp s).flying = s.flying := by
  unfold landingDetect
  rw [if_neg (fun hc => hz hc.2)]

theorem landingThrustCut_grounded (s : LqrState) (h : s.flying = false) :
    (landingThrustCut s).actuatorThrust = 0 := by
  unfold landingThrustCut; rw [h]; rfl

theorem emit_grounded (inp : LqrInputs) (s : LqrState) (h : s.actuatorThrust = 0) :
    emit inp s = { st := s, control := ⟨0, 0, 0, 0⟩,
                   resetAllPID := true, altPidReset := true } := by
  unfold emit; rw [if_pos h, h]

theorem flyingCheck_pos (inp : LqrInputs) (s : LqrState)
    (hz : inp.setpoint.position.z > 0) : (flyingCheck inp s).flying = true := by
  unfold flyingCheck; rw [if_pos hz]

theorem flyingCheck_nonpos (inp : LqrInputs) (s : LqrState)
    (hz : ¬ inp.setpoint.position.z > 0) : (flyingCheck inp s).flying = false := by
  unfold flyingCheck; rw [if_neg hz]

/-- fmaxf(fminf(x, hi), lo): range and exact-bound clamping. -/
theorem clamp_spec (lo hi x : ℚ) (h : lo ≤ hi) :
    lo ≤ max (min x hi) lo ∧ max (min x hi) lo ≤ hi ∧
    (x > hi → max (min x hi) lo = hi) ∧ (x < lo → max (min x hi) lo = lo) := by
  refine ⟨le_max_right _ _, max_le (min_le_right _ _) h, ?_, ?_⟩
  · intro hx
    rw [min_eq_right hx.le, max_eq_left h]
  · intro hx
    rw [min_eq_left (hx.le.trans h), max_eq_right hx.le]

-- Additional frame conditions for the ungated phases.

@[simp] theorem flyingCheck_err (inp : LqrInputs) (s : LqrState) :
    (flyingCheck inp s).err = s.err := by
  unfold flyingCheck; split <;> rfl

@[simp] theorem flyingCheck_u (inp : LqrInputs) (s : LqrState) :
    (flyingCheck inp s).u = s.u := by
  unfold flyingCheck; split <;> rfl

@[simp] theorem flyingCheck_mode (inp : LqrInputs) (s : LqrState) :
    (flyingCheck inp s).mode = s.mode := by
  unfold flyingCheck; split <;> rfl

@[simp] theorem lqr_D9_mode (g : Bool) (sp : setpoint_t) (st : state_t) (s : LqrState) :
    (lqr_D9 g sp st s).mode = s.mode := by
  unfold lqr_D9; split <;> rfl

@[simp] theorem lqr_D6_mode (g : Bool) (sp : setpoint_t) (st : state_t) (s : LqrState) :
    (lqr_D6 g sp st s).mode = s.mode := by
  unfold lqr_D6; split <;> rfl

@[simp] theorem lqr_D6_u (g : Bool) (sp : setpoint_t) (st : state_t) (s : LqrState) :
    (lqr_D6 g sp st s).u = s.u := by
  unfold lqr_D6; split <;> rfl

@[simp] theorem lqrDispatch_mode (inp : LqrInputs) (s : LqrState) :
    (lqrDispatch inp s).mode = s.mode := by
  unfold lqrDispatch; split
  · simp
  · split
    · simp
    · rfl

@[simp] theorem d6Cascade_mode (inp : LqrInputs) (s : LqrState) :
    (d6Cascade inp s).mode = s.mode := by
  unfold d6Cascade; split
  · split <;> rfl
  · rfl

@[simp] theorem d6Cascade_err (inp : LqrInputs) (s : LqrState) :
    (d6Cascade inp s).err = s.err := by
  unfold d6Cascade; split
  · split <;> rfl
  · rfl

@[simp] theorem altPidPhase_err (inp : LqrInputs) (s : LqrState) :
    (altPidPhase inp s).err = s.err := by
  unfold altPidPhase; split <;> rfl

@[simp] theorem altPidPhase_mode (inp : LqrInputs) (s : LqrState) :
    (altPidPhase inp s).mode = s.mode := by
  unfold altPidPhase; split <;> rfl

@[simp] theorem satConvert_err (inp : LqrInputs) (s : LqrState) :
    (satConvert inp s).err = s.err := by
  unfold satConvert; split <;> rfl

@[simp] theorem landingDetect_err (inp : LqrInputs) (s : LqrState) :
    (landingDetect inp s).err = s.err := by
  unfold landingDetect; split <;> rfl

@[simp] theorem landingThrustCut_err (s : LqrState) :
    (landingThrustCut s).err = s.err := by
  unfold landingThrustCut; split <;> rfl

theorem lqr_D9_err_ungated (sp : setpoint_t) (st : state_t) (s : LqrState) :
    (lqr_D9 false sp st s).err = s.err := by
  simp [lqr_D9]

theorem lqr_D9_u_ungated (sp : setpoint_t) (st : state_t) (s : LqrState) :
    (lqr_D9 false sp st s).u = s.u := by
  simp [lqr_D9]

theorem lqr_D6_err_ungated (sp : setpoint_t) (st : state_t) (s : LqrState) :
    (lqr_D6 false sp st s).err = s.err := by
  simp [lqr_D6]

theorem lqrDispatch_err_ungated (inp : LqrInputs) (s : LqrState)
    (h : inp.gLqr = false) : (lqrDispatch inp s).err = s.err := by
  unfold lqrDispatch
  rw [h]
  split
  · exact lqr_D9_err_ungated _ _ _
  · split
    · exact lqr_D6_err_ungated _ _ _
    · rfl

theorem lqrDispatch_u_ungated (inp : LqrInputs) (s : LqrState)
    (h : inp.gLqr = false) : (lqrDispatch inp s).u = s.u := by
  unfold lqrDispatch
  rw [h]
  split
  · exact lqr_D9_u_ungated _ _ _
  · split
    · exact lqr_D6_u _ _ _ _
    · rfl

theorem d6Cascade_u_D9 (inp : LqrInputs) (s : LqrState)
    (h : s.mode = LqrMode.D9LQR) : (d6Cascade inp s).u = s.u := by
  unfold d6Cascade
  rw [if_neg (by simp [h])]

theorem altPidPhase_u_ungated (inp : LqrInputs) (s : LqrState)
    (h : inp.gZpid = false) : (altPidPhase inp s).u = s.u := by
  simp [altPidPhase, h]

theorem controllerLqr_err_ungated (inp : LqrInputs) (s : LqrState)
    (h : inp.gLqr = false) : (controllerLqr inp s).st.err = s.err := by
  simp only [controllerLqr, emit_st, landingThrustCut_err, landingDetect_err,
    satConvert_err, preSat, altPidPhase_err, d6Cascade_err]
  rw [lqrDispatch_err_ungated _ _ h, flyingCheck_err]

theorem preSat_u_ungated (inp : LqrInputs) (s : LqrState) (hgl : inp.gLqr = false)
    (hgz : inp.gZpid = false) (hm : s.mode = LqrMode.D9LQR) :
    (preSat inp s).u = s.u := by
  unfold preSat
  rw [altPidPhase_u_ungated _ _ hgz, d6Cascade_u_D9 _ _ (by simp [hm]),
      lqrDispatch_u_ungated _ _ hgl, flyingCheck_u]

-- ===== Claim C4 =====

/-- Claim C4: on every controllerLqr invocation, setpoint z > 0 implies
the flying flag is true on that cycle; setpoint z exactly 0 together with
the code's landing tracking-error check below 0.075 implies flying is
false and the actuator thrust command is forced to 0 on that same cycle. -/
theorem c4_flying_transition (inp : LqrInputs) (s : LqrState) :
    (inp.setpoint.position.z > 0 → (controllerLqr inp s).st.flying = true) ∧
    (inp.setpoint.position.z = 0 →
      (controllerLqr inp s).st.err.position.x + (controllerLqr inp s).st.err.position.y +
        (controllerLqr inp s).st.err.position.y < 3 / 40 →
      (controllerLqr inp s).st.flying = false ∧
      (controllerLqr inp s).control.thrust = 0) := by
  constructor
  · intro hz
    have h1 : (satConvert inp (preSat inp s)).flying = true := by
      simp [flyingCheck_pos inp s hz]
    simp only [controllerLqr, emit_st, landingThrustCut_flying]
    rw [landingDetect_flying_of_znz _ _ (ne_of_gt hz)]
    exact h1
  · intro hz _
    have h0 : (flyingCheck inp s).flying = false :=
      flyingCheck_nonpos inp s (by rw [hz]; exact lt_irrefl 0)
    have h1 : (landingDetect inp (satConvert inp (preSat inp s))).flying = false :=
      landingDetect_flying_of_false _ _ (by simp [h0])
    refine ⟨?_, ?_⟩
    · simp only [controllerLqr, emit_st, landingThrustCut_flying]
      exact h1
    · simp only [controllerLqr, emit_thrust]
      exact landingThrustCut_grounded _ h1

/-- Claim C4 witness: both transitions at concrete inputs (hover setpoint
z = 1 for the first, landing setpoint z = 0 with zero tracking error for
the second). -/
theorem c4_witness :
    (controllerLqr inputsUp lqrFix).st.flying = true ∧
    (controllerLqr inputsFix lqrFix).st.flying = false ∧
    (controllerLqr inputsFix lqrFix).control.thrust = 0 := by
  have h2 := (c4_flying_transition inputsFix lqrFix).2
    (by norm_num [inputsFix, setpointFix, zeroVec])
    (by rw [controllerLqr_err_ungated inputsFix lqrFix rfl]
        norm_num [lqrFix, zeroErr, zeroVec])
  exact ⟨(c4_flying_transition inputsUp lqrFix).1 (by norm_num [inputsUp, setpointUp]),
         h2.1, h2.2⟩

-- ===== Claim C6 =====

/-- Claim C6: at every attitude-rate tick, after the saturation step the
thrust command lies in [0, 18] m/s^2 and each angular-rate command lies in
[-3.5, 3.5] rad/s; any pre-saturation value outside its bound is mapped to
exactly the bound value, never beyond. -/
theorem c6_saturation (inp : LqrInputs) (s : LqrState) (hg : inp.gAtt = true) :
    (0 ≤ (controllerLqr inp s).st.u.u0 ∧ (controllerLqr inp s).st.u.u0 ≤ 18) ∧
    |(controllerLqr inp s).st.u.u1| ≤ 7 / 2 ∧
    |(controllerLqr inp s).st.u.u2| ≤ 7 / 2 ∧
    |(controllerLqr inp s).st.u.u3| ≤ 7 / 2 ∧
    ((preSat inp s).u.u0 > 18 → (controllerLqr inp s).st.u.u0 = 18) ∧
    ((preSat inp s).u.u0 < 0 → (controllerLqr inp s).st.u.u0 = 0) ∧
    ((preSat inp s).u.u1 > 7 / 2 → (controllerLqr inp s).st.u.u1 = 7 / 2) ∧
    ((preSat inp s).u.u1 < -(7 / 2) → (controllerLqr inp s).st.u.u1 = -(7 / 2)) ∧
    ((preSat inp s).u.u2 > 7 / 2 → (controllerLqr inp s).st.u.u2 = 7 / 2) ∧
    ((preSat inp s).u.u2 < -(7 / 2) → (controllerLqr inp s).st.u.u2 = -(7 / 2)) ∧
    ((preSat inp s).u.u3 > 7 / 2 → (controllerLqr inp s).st.u.u3 = 7 / 2) ∧
    ((preSat inp s).u.u3 < -(7 / 2) → (controllerLqr inp s).st.u.u3 = -(7 / 2)) := by
  have hsat : (satConvert inp (preSat inp s)).u =
      ⟨max (min (preSat inp s).u.u0 18) 0,
       max (min (preSat inp s).u.u1 (7 / 2)) (-(7 / 2)),
       max (min (preSat inp s).u.u2 (7 / 2)) (-(7 / 2)),
       max (min (preSat inp s).u.u3 (7 / 2)) (-(7 / 2))⟩ := by
    unfold satConvert; rw [if_pos hg]
  have hu : (controllerLqr inp s).st.u =
      ⟨max (min (preSat inp s).u.u0 18) 0,
       max (min (preSat inp s).u.u1 (7 / 2)) (-(7 / 2)),
       max (min (preSat inp s).u.u2 (7 / 2)) (-(7 / 2)),
       max (min (preSat inp s).u.u3 (7 / 2)) (-(7 / 2))⟩ := by
    simp only [controllerLqr, emit_st, landingThrustCut_u, landingDetect_u]
    exact hsat
  obtain ⟨b0a, b0b, c0a, c0b⟩ := clamp_spec 0 18 (preSat inp s).u.u0 (by norm_num)
  obtain ⟨b1a, b1b, c1a, c1b⟩ :=
    clamp_spec (-(7 / 2)) (7 / 2) (preSat inp s).u.u1 (by norm_num)
  obtain ⟨b2a, b2b, c2a, c2b⟩ :=
    clamp_spec (-(7 / 2)) (7 / 2) (preSat inp s).u.u2 (by norm_num)
  obtain ⟨b3a, b3b, c3a, c3b⟩ :=
    clamp_spec (-(7 / 2)) (7 / 2) (preSat inp s).u.u3 (by norm_num)
  rw [hu]
  exact ⟨⟨b0a, b0b⟩, abs_le.mpr ⟨b1a, b1b⟩, abs_le.mpr ⟨b2a, b2b⟩, abs_le.mpr ⟨b3a, b3b⟩,
    c0a, c0b, c1a, c1b, c2a, c2b, c3a, c3b⟩

/-- Claim C6 witness: at a concrete tick with pre-saturation vector
(25, 4, -4, 0), the clamped outputs hit the exact bounds 18 and ±3.5. -/
theorem c6_witness :
    (controllerLqr inputsFix lqrFix).st.u.u0 = 18 ∧
    (controllerLqr inputsFix lqrFix).st.u.u1 = 7 / 2 ∧
    (controllerLqr inputsFix lqrFix).st.u.u2 = -(7 / 2) := by
  have hpre : (preSat inputsFix lqrFix).u = ⟨25, 4, -4, 0⟩ := by
    rw [preSat_u_ungated inputsFix lqrFix rfl rfl rfl]
    rfl
  have h := c6_saturation inputsFix lqrFix rfl
  exact ⟨h.2.2.2.2.1 (by rw [hpre]; norm_num),
         h.2.2.2.2.2.2.1 (by rw [hpre]; norm_num),
         h.2.2.2.2.2.2.2.2.2.1 (by rw [hpre]; norm_num)⟩

-- ===== Claim C7 =====

/-- Claim C7: for both control-law modes, zero tracking error and zero
nominal setpoint terms (thrust and attitude rates for D9; thrust and
attitude angles for D6) give a computed control vector that is exactly
zero on every axis, with no residual bias term. -/
theorem c7_zero_error_zero_output (sp : setpoint_t) (st : state_t) (s : LqrState)
    (h9 : errD9 sp st = zeroErr)
    (h6p : (errD6 sp st s.err).position = zeroVec)
    (h6v : (errD6 sp st s.err).velocity = zeroVec)
    (ht : sp.thrust = 0) (hrate : sp.attitudeRate = zeroAtt)
    (hatt : sp.attitude = zeroAtt) :
    (lqr_D9 true sp st s).u = ⟨0, 0, 0, 0⟩ ∧
    (lqr_D6 true sp st s).uD6 = ⟨0, 0, 0, 0⟩ := by
  constructor
  · unfold lqr_D9
    simp [h9, d9row, zeroErr, zeroVec, zeroAtt, ht, hrate]
  · unfold lqr_D6
    simp [d6row, h6p, h6v, zeroVec, ht, hatt, zeroAtt]

/-- Claim C7 witness: both modes at the all-zero setpoint and state. -/
theorem c7_witness :
    (lqr_D9 true setpointFix stateFix lqrFix).u = ⟨0, 0, 0, 0⟩ ∧
    (lqr_D6 true setpointFix stateFix lqrFix).uD6 = ⟨0, 0, 0, 0⟩ :=
  c7_zero_error_zero_output setpointFix stateFix lqrFix
    (by norm_num [errD9, setpointFix, stateFix, zeroErr, zeroVec, zeroAtt])
    (by norm_num [errD6, setpointFix, stateFix, lqrFix, zeroErr, zeroVec, zeroAtt])
    (by norm_num [errD6, setpointFix, stateFix, lqrFix, zeroErr, zeroVec, zeroAtt])
    rfl rfl rfl

-- ===== Claim C8 =====

/-- Claim C8: on any invocation where the flying flag is false after the
landing check, the emitted actuator command has thrust 0 and roll, pitch
and yaw 0, and both attitudeControllerResetAllPID and the altitude
pidReset are invoked on that cycle, so no stale integral action persists
into the next takeoff. -/
theorem c8_grounded_safety (inp : LqrInputs) (s : LqrState)
    (h : (controllerLqr inp s).st.flying = false) :
    (controllerLqr inp s).control.thrust = 0 ∧
    (controllerLqr inp s).control.roll = 0 ∧
    (controllerLqr inp s).control.pitch = 0 ∧
    (controllerLqr inp s).control.yaw = 0 ∧
    (controllerLqr inp s).resetAllPID = true ∧
    (controllerLqr inp s).altPidReset = true := by
  have hf : (landingDetect inp (satConvert inp (preSat inp s))).flying = false := by
    simpa only [controllerLqr, emit_st, landingThrustCut_flying] using h
  have h0 : (landingThrustCut (landingDetect inp (satConvert inp (preSat inp s)))).actuatorThrust
      = 0 := landingThrustCut_grounded _ hf
  have he := emit_grounded inp
    (landingThrustCut (landingDetect inp (satConvert inp (preSat inp s)))) h0
  unfold controllerLqr
  rw [he]
  exact ⟨rfl, rfl, rfl, rfl, rfl, rfl⟩

/-- Claim C8 witness: a grounded cycle (setpoint z = 0) at concrete
inputs. -/
theorem c8_witness :
    (controllerLqr inputsFix lqrFix).control.thrust = 0 ∧
    (controllerLqr inputsFix lqrFix).resetAllPID = true := by
  have hfly : (controllerLqr inputsFix lqrFix).st.flying = false := by
    simp only [controllerLqr, emit_st, landingThrustCut_flying]
    apply landingDetect_flying_of_false
    simp only [satConvert_flying, preSat_flying]
    exact flyingCheck_nonpos _ _ (by norm_num [inputsFix, setpointFix, zeroVec])
  have h := c8_grounded_safety inputsFix lqrFix hfly
  exact ⟨h.1, h.2.2.2.2.1⟩

-- ===== Claim C10 =====

/-- Claim C10: for i < 4, j < 9 (the precondition the unchecked C entry
point requires), update_K_entry(i, j, v) sets KD9[i][j] to v and changes
nothing else: every other KD9 entry, the whole KD6 matrix, the mode, the
control vectors and the rest of the controller state are unchanged. -/
theorem c10_update_K_entry (i j : Nat) (hi : i < 4) (hj : j < 9) (v : ℚ) (s : LqrState) :
    (update_K_entry ⟨i, hi⟩ ⟨j, hj⟩ v s).KD9 ⟨i, hi⟩ ⟨j, hj⟩ = v ∧
    (∀ (a : Fin 4) (b : Fin 9), ¬(a = ⟨i, hi⟩ ∧ b = ⟨j, hj⟩) →
      (update_K_entry ⟨i, hi⟩ ⟨j, hj⟩ v s).KD9 a b = s.KD9 a b) ∧
    (update_K_entry ⟨i, hi⟩ ⟨j, hj⟩ v s).KD6 = s.KD6 ∧
    (update_K_entry ⟨i, hi⟩ ⟨j, hj⟩ v s).mode = s.mode ∧
    (update_K_entry ⟨i, hi⟩ ⟨j, hj⟩ v s).u = s.u ∧
    (update_K_entry ⟨i, hi⟩ ⟨j, hj⟩ v s).uD6 = s.uD6 ∧
    (update_K_entry ⟨i, hi⟩ ⟨j, hj⟩ v s).err = s.err ∧
    (update_K_entry ⟨i, hi⟩ ⟨j, hj⟩ v s).flying = s.flying ∧
    (update_K_entry ⟨i, hi⟩ ⟨j, hj⟩ v s).actuatorThrust = s.actuatorThrust ∧
    (update_K_entry ⟨i, hi⟩ ⟨j, hj⟩ v s).rateDesired = s.rateDesired := by
  refine ⟨?_, ?_, rfl, rfl, rfl, rfl, rfl, rfl, rfl, rfl⟩
  · show (if (⟨i, hi⟩ : Fin 4) = ⟨i, hi⟩ ∧ (⟨j, hj⟩ : Fin 9) = ⟨j, hj⟩
          then v else s.KD9 ⟨i, hi⟩ ⟨j, hj⟩) = v
    rw [if_pos ⟨rfl, rfl⟩]
  · intro a b hab
    show (if a = ⟨i, hi⟩ ∧ b = ⟨j, hj⟩ then v else s.KD9 a b) = s.KD9 a b
    rw [if_neg hab]

/-- Claim C10 witness: the frame theorem at entry (0,0) with value 5. -/
theorem c10_witness :
    (update_K_entry ⟨0, by norm_num⟩ ⟨0, by norm_num⟩ 5 lqrFix).KD9 ⟨0, by norm_num⟩
      ⟨0, by norm_num⟩ = 5 ∧
    (update_K_entry ⟨0, by norm_num⟩ ⟨0, by norm_num⟩ 5 lqrFix).KD9 1 1 = lqrFix.KD9 1 1 := by
  have h := c10_update_K_entry 0 0 (by norm_num) (by norm_num) 5 lqrFix
  exact ⟨h.1, h.2.1 1 1 (by decide)⟩
